import Mathlib

/-!
Formal verification of the query-construction core of `things/database.py`
(the read-only query layer over the Things app SQLite database).

The development is a shallow embedding: the pure string-building helper
functions of the source are translated into Lean definitions operating on
`String` and small inductive value types mirroring the Python argument
domains; fallible code (Python `raise ValueError`) is rendered with
`Except`.  SQLite-side behaviour (evaluation of a generated `CASE WHEN`
fragment, the `SELECT COUNT` aggregate) is modelled by explicit evaluation
functions on an SQLite value type.
-/

namespace ThingsPy

/-! ## The packed "Things date" codec

The Things app stores `startDate` and `deadline` as a single integer whose
binary digits are `YYYYYYYYYYYMMMMDDDDD0000000` (11-bit year, 4-bit month,
5-bit day, 7 reserved zero bits).
-/

/-- The integer packing performed by `isodate_to_yyyyyyyyyyymmmmddddd`
after parsing the ISO string: `year << 16 | month << 12 | day << 7`. -/
def thingsdate_pack (year month day : Nat) : Nat :=
  year <<< 16 ||| month <<< 12 ||| day <<< 7

/-- Splitting a character list at every occurrence of the separator
character, preserving empty parts: the semantics of Python
`str.split(sep)` for a one-character separator. -/
def splitChar (sep : Char) : List Char → List (List Char)
  | [] => [[]]
  | x :: xs =>
    match splitChar sep xs, x == sep with
    | r, true => [] :: r
    | [], false => [[x]]
    | h :: t, false => (x :: h) :: t

/-- Python `value.split("-")`, modelled character-wise. -/
def py_split_dash (s : String) : List String :=
  (splitChar '-' s.data).map String.mk

/-- Python `int(s)` on an unsigned digit run: `some` of the value when the
characters are one or more digits, `none` (a `ValueError` in Python)
otherwise.  Sign handling, where Python would accept it, is done at the
call sites that need it. -/
def py_parse_nat (l : List Char) : Option Nat :=
  if l ≠ [] ∧ l.all Char.isDigit then
    some (l.foldl (fun acc c => acc * 10 + (c.toNat - 48)) 0)
  else none

/-- Python `int(s)` allowing one leading minus sign. -/
def py_parse_int (l : List Char) : Option Int :=
  match l with
  | '-' :: rest => (py_parse_nat rest).map fun n => -(n : Int)
  | _ => (py_parse_nat l).map fun n => (n : Int)

/-- Source `isodate_to_yyyyyyyyyyymmmmddddd(value)`: split the ISO date
string on `"-"`, convert the three parts with `int`, and pack them.  A
string that does not split into three integer parts makes the Python
function raise; that failure is rendered as `none`. -/
def isodate_to_yyyyyyyyyyymmmmddddd (value : String) : Option Nat :=
  match py_split_dash value with
  | [y, m, d] =>
    match py_parse_nat y.data, py_parse_nat m.data, py_parse_nat d.data with
    | some year, some month, some day => some (thingsdate_pack year month day)
    | _, _, _ => none
  | _ => none

/-- The year field extraction used by
`convert_thingsdate_sql_expression_to_isodate`:
`(thingsdate & 0b111111111110000000000000000) >> 16`. -/
def thingsdate_year (n : Nat) : Nat := (n &&& 134152192) >>> 16

/-- The month field extraction used by
`convert_thingsdate_sql_expression_to_isodate`:
`(thingsdate & 0b000000000001111000000000000) >> 12`. -/
def thingsdate_month (n : Nat) : Nat := (n &&& 61440) >>> 12

/-- The day field extraction used by
`convert_thingsdate_sql_expression_to_isodate`:
`(thingsdate & 0b000000000000000111110000000) >> 7`. -/
def thingsdate_day (n : Nat) : Nat := (n &&& 3968) >>> 7

/-! ### Bit-level helper lemmas -/

/-- A bitwise or of a number whose low `k` bits are clear with a number
below `2 ^ k` is plain addition. -/
theorem lor_eq_add_of_lt {a b k : Nat} (ha : a % 2 ^ k = 0) (hb : b < 2 ^ k) :
    a ||| b = a + b := by
  obtain ⟨c, rfl⟩ := Nat.dvd_of_mod_eq_zero ha
  rw [← Nat.mul_add_lt_is_or hb c]

/-- Masking with a field mask `(2 ^ a - 1) <<< s` and shifting right by `s`
extracts the `a`-bit field at offset `s`. -/
theorem and_shifted_mask (x s a : Nat) :
    (x &&& (2 ^ a - 1) <<< s) >>> s = (x >>> s) &&& (2 ^ a - 1) := by
  apply Nat.eq_of_testBit_eq
  intro i
  simp only [Nat.testBit_shiftRight, Nat.testBit_and, Nat.testBit_shiftLeft,
    Nat.testBit_two_pow_sub_one]
  have h1 : s ≤ s + i := by omega
  have h2 : s + i - s = i := by omega
  simp [h1, h2]

/-- The packed Things date, as plain arithmetic, for in-range month and
day values. -/
theorem thingsdate_pack_eq_add {y m d : Nat} (hm : m < 16) (hd : d < 32) :
    thingsdate_pack y m d = 65536 * y + 4096 * m + 128 * d := by
  have e16 : y <<< 16 = 65536 * y := by
    rw [Nat.shiftLeft_eq]; norm_num [Nat.mul_comm]
  have e12 : m <<< 12 = 4096 * m := by
    rw [Nat.shiftLeft_eq]; norm_num [Nat.mul_comm]
  have e7 : d <<< 7 = 128 * d := by
    rw [Nat.shiftLeft_eq]; norm_num [Nat.mul_comm]
  have p16 : (2 : Nat) ^ 16 = 65536 := by norm_num
  have p12 : (2 : Nat) ^ 12 = 4096 := by norm_num
  have h1 : (65536 * y) ||| (4096 * m) = 65536 * y + 4096 * m := by
    apply lor_eq_add_of_lt (k := 16)
    · rw [p16]; omega
    · rw [p16]; omega
  have h2 : (65536 * y + 4096 * m) ||| (128 * d) =
      65536 * y + 4096 * m + 128 * d := by
    apply lor_eq_add_of_lt (k := 12)
    · rw [p12]; omega
    · rw [p12]; omega
  rw [thingsdate_pack, e16, e12, e7, h1, h2]

/-- The year extraction as division and remainder. -/
theorem thingsdate_year_eq (n : Nat) : thingsdate_year n = n / 65536 % 2048 := by
  have hmask : (134152192 : Nat) = (2 ^ 11 - 1) <<< 16 := by
    rw [Nat.shiftLeft_eq]; norm_num
  rw [thingsdate_year, hmask, and_shifted_mask, Nat.and_pow_two_sub_one_eq_mod,
    Nat.shiftRight_eq_div_pow]

/-- The month extraction as division and remainder. -/
theorem thingsdate_month_eq (n : Nat) : thingsdate_month n = n / 4096 % 16 := by
  have hmask : (61440 : Nat) = (2 ^ 4 - 1) <<< 12 := by
    rw [Nat.shiftLeft_eq]; norm_num
  rw [thingsdate_month, hmask, and_shifted_mask, Nat.and_pow_two_sub_one_eq_mod,
    Nat.shiftRight_eq_div_pow]

/-- The day extraction as division and remainder. -/
theorem thingsdate_day_eq (n : Nat) : thingsdate_day n = n / 128 % 32 := by
  have hmask : (3968 : Nat) = (2 ^ 5 - 1) <<< 7 := by
    rw [Nat.shiftLeft_eq]; norm_num
  rw [thingsdate_day, hmask, and_shifted_mask, Nat.and_pow_two_sub_one_eq_mod,
    Nat.shiftRight_eq_div_pow]

/-- C1: for every calendar date with year in `[0, 2047]`, month in
`[1, 12]` and day in `[1, 31]`, extracting the year, month and day fields
(with the masks and shifts of `convert_thingsdate_sql_expression_to_isodate`)
from the packed integer `year << 16 | month << 12 | day << 7` (the encoding
of `isodate_to_yyyyyyyyyyymmmmddddd`) returns the original date:
`decode (encode d) = d`. -/
theorem thingsdate_roundtrip (y m d : Nat)
    (hy : y ≤ 2047) (hm1 : 1 ≤ m) (hm : m ≤ 12) (hd1 : 1 ≤ d) (hd : d ≤ 31) :
    thingsdate_year (thingsdate_pack y m d) = y ∧
    thingsdate_month (thingsdate_pack y m d) = m ∧
    thingsdate_day (thingsdate_pack y m d) = d := by
  have hpack : thingsdate_pack y m d = 65536 * y + 4096 * m + 128 * d :=
    thingsdate_pack_eq_add (by omega) (by omega)
  refine ⟨?_, ?_, ?_⟩
  · rw [thingsdate_year_eq, hpack]; omega
  · rw [thingsdate_month_eq, hpack]; omega
  · rw [thingsdate_day_eq, hpack]; omega

/-- Witness for C1 at the concrete date 2021-03-28 (packed: 132464128). -/
theorem thingsdate_roundtrip_witness :
    thingsdate_year (thingsdate_pack 2021 3 28) = 2021 ∧
    thingsdate_month (thingsdate_pack 2021 3 28) = 3 ∧
    thingsdate_day (thingsdate_pack 2021 3 28) = 28 :=
  thingsdate_roundtrip 2021 3 28 (by decide) (by decide) (by decide)
    (by decide) (by decide)

/-! ## SQLite value semantics

The source emits SQL fragments; to state semantic claims about them we
model the SQLite values such a fragment ranges over and the truthiness
rule of a `CASE WHEN` condition (NULL is not taken; a number is true iff
nonzero; text is coerced to its leading integer value). -/

/-- An SQLite storage value as produced and consumed by the queries of the
source: NULL, an integer, or text. -/
inductive SQLVal where
  | null
  | int (n : Int)
  | text (s : String)
deriving DecidableEq, Repr

/-- SQLite coercion of text to an integer: the longest leading
(optionally negated) digit run counts, anything else is 0. -/
def sqlTextNumericPrefix (s : String) : Int :=
  let neg := s.startsWith "-"
  let body := if neg then s.drop 1 else s
  match (body.takeWhile Char.isDigit).toNat? with
  | some n => if neg then -(n : Int) else (n : Int)
  | none => 0

/-- SQLite truthiness of a value, as used by `CASE WHEN value THEN`:
NULL is not true, a number is true iff nonzero, text is true iff its
numeric coercion is nonzero. -/
def sqlTruthy : SQLVal → Bool
  | .null => false
  | .int n => n != 0
  | .text s => sqlTextNumericPrefix s != 0

/-- SQLite evaluation of `CASE WHEN c THEN t ELSE e END`. -/
def sql_case_when_else (c t e : SQLVal) : SQLVal :=
  if sqlTruthy c then t else e

/-! ## Python helpers: ISO date parsing and string escaping -/

/-- Days in a month of the proleptic Gregorian calendar (Python
`datetime`). -/
def daysInMonth (y m : Nat) : Nat :=
  if m = 2 then
    if (y % 4 = 0 ∧ y % 100 ≠ 0) ∨ y % 400 = 0 then 29 else 28
  else if m = 4 ∨ m = 6 ∨ m = 9 ∨ m = 11 then 30 else 31

/-- Model of the Python standard library call
`datetime.date.fromisoformat` on the `"YYYY-MM-DD"` format: the parsed
`(year, month, day)` on success, `none` where Python raises `ValueError`.
The source uses it only as a validity check for ISO date strings. -/
def fromisoformat? (s : String) : Option (Nat × Nat × Nat) :=
  match py_split_dash s with
  | [ys, ms, ds] =>
    if ys.length = 4 ∧ ms.length = 2 ∧ ds.length = 2 then
      match py_parse_nat ys.data, py_parse_nat ms.data, py_parse_nat ds.data with
      | some y, some m, some d =>
        if 1 ≤ y ∧ 1 ≤ m ∧ m ≤ 12 ∧ 1 ≤ d ∧ d ≤ daysInMonth y m then
          some (y, m, d)
        else none
      | _, _, _ => none
    else none
  | _ => none

/-- Source `escape_string(string)`: SQLite string-literal escaping,
`string.replace("'", "''")` — every single quote is doubled, character by
character (Python strings are character sequences). -/
def escape_string (string : String) : String :=
  String.mk (string.data.flatMap fun c => if c = '\'' then [c, c] else [c])

/-! ## The SQL-expression variants of the date codec -/

/-- The `printf` expression that decodes a Things date into an ISO string
(the THEN branch built by `convert_thingsdate_sql_expression_to_isodate`). -/
def thingsdate_to_isodate_printf (thingsdate : String) : String :=
  "printf('%d-%02d-%02d', (" ++ thingsdate ++ " & 134152192) >> 16, (" ++
    thingsdate ++ " & 61440) >> 12, (" ++ thingsdate ++ " & 3968) >> 7)"

/-- Source `convert_thingsdate_sql_expression_to_isodate(sql_expression)`:
wrap the decoding `printf` in `CASE WHEN ... ELSE ... END` so that a NULL
or falsy source value is returned as-is. -/
def convert_thingsdate_sql_expression_to_isodate (sql_expression : String) :
    String :=
  let thingsdate := sql_expression
  let isodate := thingsdate_to_isodate_printf thingsdate
  "CASE WHEN " ++ thingsdate ++ " THEN " ++ isodate ++ " ELSE " ++
    thingsdate ++ " END"

/-- The shift-and-or expression that packs an ISO date into a Things date
(the core expression built by `convert_isodate_sql_expression_to_thingsdate`). -/
def isodate_to_thingsdate_shifts (isodate : String) : String :=
  "((strftime('%Y', " ++ isodate ++ ") << 16) | (strftime('%m', " ++
    isodate ++ ") << 12) | (strftime('%d', " ++ isodate ++ ") << 7))"

/-- Source `convert_isodate_sql_expression_to_thingsdate(sql_expression,
null_possible)`: the packing expression, wrapped in
`CASE WHEN ... ELSE ... END` when the input can be NULL. -/
def convert_isodate_sql_expression_to_thingsdate (sql_expression : String)
    (null_possible : Bool) : String :=
  let isodate := sql_expression
  let thingsdate := isodate_to_thingsdate_shifts isodate
  if null_possible then
    "CASE WHEN " ++ isodate ++ " THEN " ++ thingsdate ++ " ELSE " ++
      isodate ++ " END"
  else thingsdate

/-- SQLite evaluation of the fragment returned by
`convert_thingsdate_sql_expression_to_isodate`, as a function of the value
`v` of the source expression.  The THEN branch applies the mask-and-shift
field extractions and `printf('%d-%02d-%02d', ...)`; zero-padding to two
digits is `pad2`. -/
def pad2 (n : Nat) : String := if n < 10 then "0" ++ toString n else toString n

/-- The ISO text produced by the decode fragment for a packed integer. -/
def thingsdate_fields_text (n : Nat) : String :=
  toString (thingsdate_year n) ++ "-" ++ pad2 (thingsdate_month n) ++ "-" ++
    pad2 (thingsdate_day n)

/-- Evaluation of the decode fragment `CASE WHEN v THEN printf(...) ELSE v
END` on the value of the source expression. -/
def eval_thingsdate_to_isodate (v : SQLVal) : SQLVal :=
  sql_case_when_else v
    (match v with
     | .int n => .text (thingsdate_fields_text n.toNat)
     | .text s => .text (thingsdate_fields_text (sqlTextNumericPrefix s).toNat)
     | .null => .null)
    v

/-- Evaluation of the null-possible encode fragment `CASE WHEN v THEN
((strftime(...) << 16) | ...) ELSE v END` on the value of the source
expression.  `strftime` yields the date fields of an ISO date text and
NULL otherwise; the source only ever applies the fragment to ISO-date
text expressions. -/
def eval_isodate_to_thingsdate (v : SQLVal) : SQLVal :=
  sql_case_when_else v
    (match v with
     | .text s =>
       match fromisoformat? s with
       | some (y, m, d) => .int (thingsdate_pack y m d)
       | none => .null
     | .int _ => .null
     | .null => .null)
    v

/-- C2: the SQL-expression variants of the date codec are NULL-in/NULL-out.
Both fragments have the shape `CASE WHEN src THEN body ELSE src END` with
the source expression itself in the WHEN and ELSE positions, and the CASE
semantics returns the ELSE value — the source value unchanged — whenever
that value is NULL or falsy, so such an input is never turned into a
valid-looking zero date. -/
theorem sql_date_codec_null_passthrough :
    (∀ e, convert_thingsdate_sql_expression_to_isodate e =
      "CASE WHEN " ++ e ++ " THEN " ++ thingsdate_to_isodate_printf e ++
        " ELSE " ++ e ++ " END") ∧
    (∀ e, convert_isodate_sql_expression_to_thingsdate e true =
      "CASE WHEN " ++ e ++ " THEN " ++ isodate_to_thingsdate_shifts e ++
        " ELSE " ++ e ++ " END") ∧
    (∀ v, sqlTruthy v = false →
      eval_thingsdate_to_isodate v = v ∧ eval_isodate_to_thingsdate v = v) ∧
    sqlTruthy SQLVal.null = false ∧ sqlTruthy (SQLVal.int 0) = false := by
  refine ⟨fun e => rfl, fun e => rfl, ?_, rfl, by decide⟩
  intro v hv
  cases v <;>
    refine ⟨?_, ?_⟩ <;>
    simp_all [eval_thingsdate_to_isodate, eval_isodate_to_thingsdate,
      sql_case_when_else, sqlTruthy]

/-- Witness for C2 at the NULL and falsy-integer inputs. -/
theorem sql_date_codec_null_passthrough_witness :
    eval_thingsdate_to_isodate SQLVal.null = SQLVal.null ∧
    eval_isodate_to_thingsdate (SQLVal.int 0) = SQLVal.int 0 :=
  ⟨(sql_date_codec_null_passthrough.2.2.1 SQLVal.null (by decide)).1,
   (sql_date_codec_null_passthrough.2.2.1 (SQLVal.int 0) (by decide)).2⟩

/-! ## Predicate builders -/

/-- The domain of a generic filter argument in the source: Python `None`,
a `bool`, or a string. -/
inductive FilterValue where
  | none
  | bool (b : Bool)
  | str (s : String)
deriving DecidableEq, Repr

/-- Source `make_filter(column, value)`: the dictionary dispatch on
`None` / `False` / `True` with the `column = 'escaped'` default. -/
def make_filter (column : String) (value : FilterValue) : String :=
  match value with
  | .none => ""
  | .bool false => "AND " ++ column ++ " IS NULL"
  | .bool true => "AND " ++ column ++ " IS NOT NULL"
  | .str s => "AND " ++ column ++ " = '" ++ escape_string s ++ "'"

/-- Source `make_truthy_filter(column, value)`: `None` gives no
constraint, a truthy value tests the column itself, a falsy one tests
`NOT IFNULL(column, 0)`. -/
def make_truthy_filter (column : String) (value : Option Bool) : String :=
  match value with
  | Option.none => ""
  | some true => "AND " ++ column
  | some false => "AND NOT IFNULL(" ++ column ++ ", 0)"

/-- Source `remove_prefix(text, prefix)`: Python
`text[text.startswith(prefix) and len(prefix):]`, modelled on the
character list (Python strings are character sequences). -/
def remove_prefix (text pre : String) : String :=
  if pre.data.isPrefixOf text.data then String.mk (text.data.drop pre.data.length)
  else text

/-- Python `sep.join(strings)`. -/
def py_join (sep : String) : List String → String
  | [] => ""
  | [x] => x
  | x :: y :: ys => x ++ sep ++ py_join sep (y :: ys)

/-- Source `make_or_filter(*filters)`: drop falsy (empty) fragments,
strip the `"AND "` prefix off each, join with `" OR "`, and wrap the
non-empty result as `AND (...)`. -/
def make_or_filter (filters : List String) : String :=
  let fs := filters.filter fun f => f ≠ ""
  let fs := fs.map fun f => remove_prefix f "AND "
  let joined := py_join " OR " fs
  if joined = "" then "" else "AND (" ++ joined ++ ")"

/-- Source `make_search_filter(query)`: empty or absent query gives no
constraint; otherwise a disjunction of `LIKE '%query%'` substring matches
over `TASK.title`, `TASK.notes` and `AREA.title`, with the query escaped. -/
def make_search_filter (query : Option String) : String :=
  match query with
  | Option.none => ""
  | some q =>
    if q = "" then ""
    else
      let q2 := escape_string q
      let columns := ["TASK.title", "TASK.notes", "AREA.title"]
      let sub_searches := columns.map fun column => column ++ " LIKE '%" ++ q2 ++ "%'"
      "AND (" ++ py_join " OR " sub_searches ++ ")"

/-! ### Helper lemmas about the string plumbing -/

/-- Appending to a non-empty string stays non-empty. -/
theorem append_ne_empty_left {a : String} (b : String) (h : a ≠ "") :
    a ++ b ≠ "" := by
  intro hc
  have h2 := congrArg String.data hc
  rw [String.data_append] at h2
  exact absurd (String.ext (List.append_eq_nil.mp h2).1) h

/-- Stripping a prefix that is literally there. -/
theorem remove_prefix_append (pre r : String) : remove_prefix (pre ++ r) pre = r := by
  have h : pre.data.isPrefixOf (pre ++ r).data = true := by
    rw [List.isPrefixOf_iff_prefix, String.data_append]
    exact List.prefix_append _ _
  rw [ remove_prefix, if_pos h, String.data_append, List.drop_left]

/-- A join of non-empty strings over a non-empty list is non-empty. -/
theorem py_join_ne_empty (sep : String) :
    ∀ rs : List String, rs ≠ [] → (∀ r ∈ rs, r ≠ "") → py_join sep rs ≠ ""
  | [], h0, _ => absurd rfl h0
  | [x], _, h => by simpa [py_join] using h x (by simp)
  | x :: y :: ys, _, h => by
    rw [py_join, String.append_assoc]
    exact append_ne_empty_left _ (h x (by simp))

/-- C5: the builders map the sentinels `None` / `True` / `False` exactly:
`make_filter` to the empty fragment and the IS-(NOT)-NULL forms,
`make_truthy_filter` to the empty fragment, the bare column and the
`NOT IFNULL(column, 0)` forms. -/
theorem filter_sentinels (column : String) :
    make_filter column FilterValue.none = "" ∧
    make_truthy_filter column Option.none = "" ∧
    make_filter column (FilterValue.bool true) =
      "AND " ++ column ++ " IS NOT NULL" ∧
    make_filter column (FilterValue.bool false) =
      "AND " ++ column ++ " IS NULL" ∧
    make_truthy_filter column (some true) = "AND " ++ column ∧
    make_truthy_filter column (some false) =
      "AND NOT IFNULL(" ++ column ++ ", 0)" :=
  ⟨rfl, rfl, rfl, rfl, rfl, rfl⟩

/-- C6: `make_or_filter` of no fragments or of only empty fragments is the
empty fragment; on fragments of the form `"AND " ++ r` with non-empty `r`
it strips the leading connective off each, joins with `" OR "` and wraps
as `AND (...)`; in particular `"AND a = 1"` and `"AND b = 2"` combine to
exactly `"AND (a = 1 OR b = 2)"`. -/
theorem make_or_filter_spec :
    make_or_filter [] = "" ∧
    (∀ fs : List String, (∀ f ∈ fs, f = "") → make_or_filter fs = "") ∧
    (∀ rs : List String, rs ≠ [] → (∀ r ∈ rs, r ≠ "") →
      make_or_filter (rs.map fun r => "AND " ++ r) =
        "AND (" ++ py_join " OR " rs ++ ")") ∧
    make_or_filter ["AND a = 1", "AND b = 2"] = "AND (a = 1 OR b = 2)" := by
  refine ⟨rfl, ?_, ?_, by decide⟩
  · intro fs h
    have hfil : (fs.filter fun f => f ≠ "") = [] := by
      simp only [List.filter_eq_nil_iff]
      intro a ha
      simp [h a ha]
    rw [make_or_filter, hfil]
    rfl
  · intro rs h0 h
    have hfil : ((rs.map fun r => "AND " ++ r).filter fun f => f ≠ "") =
        rs.map fun r => "AND " ++ r := by
      rw [List.filter_eq_self]
      intro a ha
      obtain ⟨r, _, rfl⟩ := List.mem_map.mp ha
      simpa using append_ne_empty_left r (by decide)
    have hmap : ((rs.map fun r => "AND " ++ r).map fun f =>
        remove_prefix f "AND ") = rs := by
      rw [List.map_map]
      conv_rhs => rw [← List.map_id rs]
      exact List.map_congr_left fun r _ => remove_prefix_append "AND " r
    rw [make_or_filter]
    simp only [hfil, hmap]
    rw [if_neg (py_join_ne_empty " OR " rs h0 h)]

/-- Witness for C6: the all-empty-input case and the concrete two-fragment
case, through the quantified parts of the theorem. -/
theorem make_or_filter_spec_witness :
    make_or_filter ["", ""] = "" ∧
    make_or_filter ["AND x IS NULL", "AND y = '1'"] =
      "AND (" ++ py_join " OR " ["x IS NULL", "y = '1'"] ++ ")" :=
  ⟨make_or_filter_spec.2.1 ["", ""] (by decide),
   make_or_filter_spec.2.2.1 ["x IS NULL", "y = '1'"] (by decide) (by decide)⟩

/-- C7: the search filter is empty for an absent or empty query, and for a
non-empty query it is exactly the OR-disjunction of `LIKE '%query%'`
matches over `TASK.title`, `TASK.notes` and `AREA.title` with single
quotes in the query doubled by `escape_string`. -/
theorem make_search_filter_spec :
    make_search_filter Option.none = "" ∧
    make_search_filter (some "") = "" ∧
    (∀ q : String, q ≠ "" →
      make_search_filter (some q) =
        "AND (TASK.title LIKE '%" ++ escape_string q ++
          "%' OR TASK.notes LIKE '%" ++ escape_string q ++
          "%' OR AREA.title LIKE '%" ++ escape_string q ++ "%')") ∧
    make_search_filter (some "dinner") =
      "AND (TASK.title LIKE '%dinner%' OR TASK.notes LIKE '%dinner%' OR AREA.title LIKE '%dinner%')" ∧
    make_search_filter (some "din'ner") =
      "AND (TASK.title LIKE '%din''ner%' OR TASK.notes LIKE '%din''ner%' OR AREA.title LIKE '%din''ner%')" := by
  refine ⟨rfl, rfl, ?_, by decide, by decide⟩
  intro q hq
  rw [make_search_filter]
  simp only [if_neg hq, List.map_cons, List.map_nil, py_join]
  simp only [String.append_assoc]
  rfl

/-- Witness for C7 at the concrete query `"dinner"`, through the
quantified part of the theorem. -/
theorem make_search_filter_spec_witness :
    make_search_filter (some "dinner") =
      "AND (TASK.title LIKE '%" ++ escape_string "dinner" ++
        "%' OR TASK.notes LIKE '%" ++ escape_string "dinner" ++
        "%' OR AREA.title LIKE '%" ++ escape_string "dinner" ++ "%')" :=
  make_search_filter_spec.2.2.1 "dinner" (by decide)

/-! ## Validation -/

/-- The error taxonomy of the source.  Every constructor is surfaced as a
Python `ValueError`; the constructor records the raise site: `validation`
for `validate`/`validate_offset` (carrying the parameter name of the
message), `notFound` for a uuid lookup that matched nothing, `intParse`
for a failing `int(...)` conversion. -/
inductive PyError where
  | validation (parameter : String)
  | notFound (msg : String)
  | intParse (s : String)
deriving DecidableEq, Repr

/-- Source `validate(parameter, argument, valid_arguments)`: `ValueError`
naming the parameter unless the argument is a member of the valid list. -/
def validate {α : Type} [DecidableEq α] (parameter : String) (argument : α)
    (valid_arguments : List α) : Except PyError Unit :=
  if argument ∈ valid_arguments then Except.ok ()
  else Except.error (PyError.validation parameter)

/-- The domain of the `last` offset argument: Python `None`, a string, or
any value of another type. -/
inductive OffsetArg where
  | none
  | str (s : String)
  | nonString
deriving DecidableEq, Repr

/-- Source `validate_offset(parameter, argument)`: accept `None`; reject a
non-string; compute `suffix = argument[-1:]` (the last character, or the
empty string — modelled on the character list) and reject unless the
suffix is one of `"d"`, `"w"`, `"y"`. -/
def validate_offset (parameter : String) (argument : OffsetArg) :
    Except PyError Unit :=
  match argument with
  | .none => Except.ok ()
  | .nonString => Except.error (PyError.validation parameter)
  | .str s =>
    let suffix := String.mk (s.data.drop (s.data.length - 1))
    if suffix = "d" ∨ suffix = "w" ∨ suffix = "y" then Except.ok ()
    else Except.error (PyError.validation parameter)

/-- Dropping all but the last element of a list leaves exactly the last
element, when there is one. -/
theorem drop_length_sub_one {α : Type} : ∀ l : List α,
    l.drop (l.length - 1) = match l.getLast? with
      | some c => [c]
      | Option.none => []
  | [] => rfl
  | [x] => rfl
  | x :: y :: ys => by
    rw [List.getLast?_cons_cons]
    have h : (x :: y :: ys).length - 1 = (y :: ys).length - 1 + 1 := by
      simp
    rw [h, List.drop_succ_cons]
    exact drop_length_sub_one (y :: ys)

/-- Special case of `drop_length_sub_one`: no last element. -/
theorem drop_last_none {α : Type} {l : List α} (h : l.getLast? = Option.none) :
    l.drop (l.length - 1) = [] := by
  rw [drop_length_sub_one, h]

/-- Special case of `drop_length_sub_one`: a last element `c`. -/
theorem drop_last_some {α : Type} {l : List α} {c : α}
    (h : l.getLast? = some c) : l.drop (l.length - 1) = [c] := by
  rw [drop_length_sub_one, h]

/-- C4 (amended): `validate_offset` accepts `None`; it raises exactly when
the argument is not `None` and either is not a string or its last
character is not one of `d`, `w`, `y`.  The integer prefix is not
examined.  In particular each of `"5"`, `"3x"` and `""` is rejected. -/
theorem validate_offset_spec :
    validate_offset "last" OffsetArg.none = Except.ok () ∧
    validate_offset "last" OffsetArg.nonString =
      Except.error (PyError.validation "last") ∧
    (∀ s : String, validate_offset "last" (OffsetArg.str s) = Except.ok () ↔
      ∃ c, s.data.getLast? = some c ∧ (c = 'd' ∨ c = 'w' ∨ c = 'y')) ∧
    validate_offset "last" (OffsetArg.str "5") =
      Except.error (PyError.validation "last") ∧
    validate_offset "last" (OffsetArg.str "3x") =
      Except.error (PyError.validation "last") ∧
    validate_offset "last" (OffsetArg.str "") =
      Except.error (PyError.validation "last") ∧
    validate_offset "last" (OffsetArg.str "3d") = Except.ok () := by
  refine ⟨rfl, rfl, ?_, rfl, rfl, rfl, rfl⟩
  intro s
  have hdd : ("d" : String).data = ['d'] := rfl
  have hwd : ("w" : String).data = ['w'] := rfl
  have hyd : ("y" : String).data = ['y'] := rfl
  rcases hl : s.data.getLast? with _ | c
  · have hd : s.data.drop (s.data.length - 1) = [] := drop_last_none hl
    rw [validate_offset]
    simp only [hd, hl]
    simp [String.ext_iff, hdd, hwd, hyd]
  · have hd : s.data.drop (s.data.length - 1) = [c] := drop_last_some hl
    rw [validate_offset]
    simp only [hd, hl]
    have hiff : (String.mk [c] = "d" ∨ String.mk [c] = "w" ∨
        String.mk [c] = "y") ↔ (c = 'd' ∨ c = 'w' ∨ c = 'y') := by
      simp [String.ext_iff, hdd, hwd, hyd]
    by_cases hc : c = 'd' ∨ c = 'w' ∨ c = 'y'
    · rw [if_pos (hiff.mpr hc)]
      simp [hc]
    · rw [if_neg (fun h => hc (hiff.mp h))]
      constructor
      · intro h
        exact absurd h (by simp)
      · rintro ⟨c2, hc2, hcase⟩
        obtain rfl : c = c2 := by injection hc2
        exact absurd hcase hc

/-- Witness for C4, applying the quantified characterization at a
concrete accepted string. -/
theorem validate_offset_spec_witness :
    validate_offset "last" (OffsetArg.str "anything-w") = Except.ok () :=
  (validate_offset_spec.2.2.1 "anything-w").mpr ⟨'w', by decide, by decide⟩

/-- C4 counterexample: the string `"ad"` — last character `d`, prefix `a`
which is not an integer — is accepted by `validate_offset`, not rejected. -/
theorem validate_offset_counterexample :
    validate_offset "last" (OffsetArg.str "ad") = Except.ok () := rfl

/-! ## Date-valued filters -/

/-- Parsing agreement: when `fromisoformat?` accepts a string,
`isodate_to_yyyyyyyyyyymmmmddddd` packs exactly its fields. -/
theorem isodate_of_fromiso {s : String} {y m d : Nat}
    (h : fromisoformat? s = some (y, m, d)) :
    isodate_to_yyyyyyyyyyymmmmddddd s = some (thingsdate_pack y m d) := by
  unfold fromisoformat? at h
  unfold isodate_to_yyyyyyyyyyymmmmddddd
  split at h <;> try exact Option.noConfusion h
  split at h <;> try exact Option.noConfusion h
  split at h <;> try exact Option.noConfusion h
  split at h <;> try exact Option.noConfusion h
  simp_all

/-- Source `make_thingsdate_filter(date_column, value)`: `None` gives no
constraint; a `bool` defers to `make_filter`; an ISO date string is packed
by `isodate_to_yyyyyyyyyyymmmmddddd` and compared with `>=`; otherwise the
value must be `"future"` (`>`) or `"past"` (`<=`), compared against the
packed encoding of `date('now', 'localtime')`.  There is no exactness
flag in this function. -/
def make_thingsdate_filter (date_column : String) (value : FilterValue) :
    Except PyError String :=
  match value with
  | .none => Except.ok ""
  | .bool b => Except.ok (make_filter date_column (.bool b))
  | .str s =>
    match fromisoformat? s with
    | some _ =>
      match isodate_to_yyyyyyyyyyymmmmddddd s with
      | some converted_value =>
        Except.ok ("AND " ++ date_column ++ " " ++ ">=" ++ " (" ++
          toString converted_value ++ ")")
      | Option.none => Except.error (PyError.intParse s)
    | Option.none =>
      match validate "value" (FilterValue.str s)
          [FilterValue.str "future", FilterValue.str "past"] with
      | Except.error e => Except.error e
      | Except.ok () =>
        let threshold :=
          convert_isodate_sql_expression_to_thingsdate "date('now', 'localtime')"
            false
        let comparator := if s = "future" then ">" else "<="
        Except.ok ("AND " ++ date_column ++ " " ++ comparator ++ " (" ++
          threshold ++ ")")

/-- Source `make_unixtime_filter(date_column, value, exact)`: like
`make_thingsdate_filter` but comparing `date(column, 'unixepoch')`
directly; this is the one date filter with an `exact` flag, which selects
`==` instead of `>=` for a concrete ISO date. -/
def make_unixtime_filter (date_column : String) (value : FilterValue)
    (exact : Bool) : Except PyError String :=
  match value with
  | .none => Except.ok ""
  | .bool b => Except.ok (make_filter date_column (.bool b))
  | .str s =>
    match fromisoformat? s with
    | some _ =>
      let threshold := "date('" ++ s ++ "')"
      let comparator := if exact then "==" else ">="
      Except.ok ("AND date(" ++ date_column ++ ", 'unixepoch') " ++
        comparator ++ " " ++ threshold)
    | Option.none =>
      match validate "value" (FilterValue.str s)
          [FilterValue.str "future", FilterValue.str "past"] with
      | Except.error e => Except.error e
      | Except.ok () =>
        let threshold := "date('now', 'localtime')"
        let comparator := if s = "future" then ">" else "<="
        Except.ok ("AND date(" ++ date_column ++ ", 'unixepoch') " ++
          comparator ++ " " ++ threshold)

/-- Source `make_unixtime_range_filter(date_column, offset)`: `None` gives
no constraint; otherwise the offset is validated, split into
`int(offset[:-1])` and its unit character, weeks are multiplied to days,
and the fragment compares against `datetime('now', '-N days/years')`. -/
def make_unixtime_range_filter (date_column : String) (offset : OffsetArg) :
    Except PyError String :=
  match offset with
  | .none => Except.ok ""
  | .nonString =>
    match validate_offset "offset" OffsetArg.nonString with
    | Except.error e => Except.error e
    | Except.ok () => Except.ok ""
  | .str s =>
    match validate_offset "offset" (OffsetArg.str s) with
    | Except.error e => Except.error e
    | Except.ok () =>
      match py_parse_int (s.data.dropLast) with
      | some number =>
        let suffix := String.mk (s.data.drop (s.data.length - 1))
        let modifier :=
          if suffix = "d" then "-" ++ toString number ++ " days"
          else if suffix = "w" then "-" ++ toString (number * 7) ++ " days"
          else "-" ++ toString number ++ " years"
        Except.ok ("AND datetime(" ++ date_column ++
          ", 'unixepoch') > datetime('now', '" ++ modifier ++ "')")
      | Option.none => Except.error (PyError.intParse (String.mk s.data.dropLast))

/-- C3 (amended): in `make_thingsdate_filter` a concrete ISO date always
produces a `>=` comparison against the packed encoding of that date — the
function has no exactness flag, so `exact` never switches it to `==` (the
`exact` flag belongs to `make_unixtime_filter`, the stop-date filter);
the sentinels produce `>` (`future`) and `<=` (`past`) against the packed
encoding of `date('now', 'localtime')`. -/
theorem make_thingsdate_filter_spec :
    (∀ (col s : String) (y m d : Nat), fromisoformat? s = some (y, m, d) →
      make_thingsdate_filter col (FilterValue.str s) =
        Except.ok ("AND " ++ col ++ " >= (" ++
          toString (thingsdate_pack y m d) ++ ")")) ∧
    (∀ col, make_thingsdate_filter col (FilterValue.str "future") =
      Except.ok ("AND " ++ col ++ " > (" ++
        isodate_to_thingsdate_shifts "date('now', 'localtime')" ++ ")")) ∧
    (∀ col, make_thingsdate_filter col (FilterValue.str "past") =
      Except.ok ("AND " ++ col ++ " <= (" ++
        isodate_to_thingsdate_shifts "date('now', 'localtime')" ++ ")")) ∧
    (∀ (col s : String) (y m d : Nat), fromisoformat? s = some (y, m, d) →
      make_unixtime_filter col (FilterValue.str s) true =
        Except.ok ("AND date(" ++ col ++ ", 'unixepoch') == date('" ++ s ++
          "')") ∧
      make_unixtime_filter col (FilterValue.str s) false =
        Except.ok ("AND date(" ++ col ++ ", 'unixepoch') >= date('" ++ s ++
          "')")) ∧
    make_thingsdate_filter "deadline" (FilterValue.str "2021-03-28") =
      Except.ok "AND deadline >= (132464128)" := by
  refine ⟨?_, ?_, ?_, ?_, rfl⟩
  · intro col s y m d h
    rw [make_thingsdate_filter, h, isodate_of_fromiso h]
    simp only [String.append_assoc]
    rfl
  · intro col
    have hf : fromisoformat? "future" = Option.none := rfl
    rw [make_thingsdate_filter, hf]
    simp only [String.append_assoc]
    rfl
  · intro col
    have hf : fromisoformat? "past" = Option.none := rfl
    rw [make_thingsdate_filter, hf]
    simp only [String.append_assoc]
    rfl
  · intro col s y m d h
    constructor <;>
      · rw [make_unixtime_filter, h]
        simp only [String.append_assoc]
        rfl

/-- Witness for C3 at the date 2021-03-28 (from the docstring of the
source function). -/
theorem make_thingsdate_filter_spec_witness :
    make_thingsdate_filter "TASK.startDate" (FilterValue.str "2021-03-28") =
      Except.ok ("AND " ++ "TASK.startDate" ++ " >= (" ++
        toString (thingsdate_pack 2021 3 28) ++ ")") :=
  make_thingsdate_filter_spec.1 "TASK.startDate" "2021-03-28" 2021 3 28
    (by decide)

/-! ## Constants of the source module -/

/-- `START_TO_FILTER`. -/
def START_TO_FILTER : List (String × String) :=
  [("Inbox", "start = 0"), ("Anytime", "start = 1"), ("Someday", "start = 2")]

/-- `STATUS_TO_FILTER`. -/
def STATUS_TO_FILTER : List (String × String) :=
  [("incomplete", "status = 0"), ("canceled", "status = 2"),
   ("completed", "status = 3")]

/-- `TRASHED_TO_FILTER`. -/
def TRASHED_TO_FILTER : List (Bool × String) :=
  [(true, "trashed = 1"), (false, "trashed = 0")]

/-- `TYPE_TO_FILTER`. -/
def TYPE_TO_FILTER : List (String × String) :=
  [("to-do", "type = 0"), ("project", "type = 1"), ("heading", "type = 2")]

/-- `DATES`: the values the date-valued parameters of `get_tasks` are
validated against (besides `None`). -/
def DATES : List FilterValue :=
  [.str "future", .str "past", .bool true, .bool false]

/-- `INDICES`. -/
def INDICES : List String := ["index", "todayIndex"]

/-- Python `dict.get(key, default)` on a string-keyed table. -/
def dict_get (d : List (String × String)) (key : String) (dflt : String) :
    String :=
  match d.find? (fun kv => kv.1 == key) with
  | some kv => kv.2
  | Option.none => dflt

/-- Source `get_allow_none(dictionary, key, default)` for the
`TRASHED_TO_FILTER` table with an optional boolean key. -/
def get_allow_none (d : List (Bool × String)) (key : Option Bool)
    (dflt : String) : String :=
  match key with
  | Option.none => dflt
  | some b =>
    match d.find? (fun kv => kv.1 == b) with
    | some kv => kv.2
    | Option.none => dflt

/-- `IS_TODO = TYPE_TO_FILTER["to-do"]` and friends. -/
def IS_TODO : String := dict_get TYPE_TO_FILTER "to-do" ""

def IS_PROJECT : String := dict_get TYPE_TO_FILTER "project" ""

def IS_HEADING : String := dict_get TYPE_TO_FILTER "heading" ""

def IS_INCOMPLETE : String := dict_get STATUS_TO_FILTER "incomplete" ""

def IS_CANCELED : String := dict_get STATUS_TO_FILTER "canceled" ""

def IS_COMPLETED : String := dict_get STATUS_TO_FILTER "completed" ""

def IS_INBOX : String := dict_get START_TO_FILTER "Inbox" ""

def IS_ANYTIME : String := dict_get START_TO_FILTER "Anytime" ""

def IS_SOMEDAY : String := dict_get START_TO_FILTER "Someday" ""

/-- `IS_NOT_RECURRING`. -/
def IS_NOT_RECURRING : String := "rt1_recurrenceRule IS NULL"

/-- `IS_TRASHED = TRASHED_TO_FILTER[True]`. -/
def IS_TRASHED : String := "trashed = 1"

/-- Python `str.title()`: uppercase the first letter of every alphabetic
run, lowercase the rest. -/
def py_title_aux : Bool → List Char → List Char
  | _, [] => []
  | prevAlpha, c :: cs =>
    let c2 :=
      if c.isAlpha then (if prevAlpha then c.toLower else c.toUpper) else c
    c2 :: py_title_aux c.isAlpha cs

/-- Python `s.title()`. -/
def py_title (s : String) : String := String.mk (py_title_aux false s.data)

/-- Python `value or default` on an optional string: the default when the
value is `None` or empty. -/
def py_or_str (v : Option String) (dflt : String) : String :=
  match v with
  | some s => if s = "" then dflt else s
  | Option.none => dflt

/-- Lifting an optional string parameter into the `make_filter` domain. -/
def FilterValue.ofOption : Option String → FilterValue
  | Option.none => FilterValue.none
  | some s => FilterValue.str s

/-- Lifting an optional boolean parameter into the `make_filter` domain. -/
def FilterValue.ofOptionBool : Option Bool → FilterValue
  | Option.none => FilterValue.none
  | some b => FilterValue.bool b

/-! ## Execution model

`execute_query` performs I/O against SQLite; its behaviour is abstracted
as an oracle giving, for each query text and parameter list, the rows the
engine returns.  A row is modelled by the one column the verified
properties inspect, its `uuid`. -/

/-- A result row; only the `uuid` column is modelled, as it is the only
column the counting and lookup logic reads. -/
structure Row where
  uuid : SQLVal
deriving DecidableEq, Repr

/-- The database oracle: `runQuery` models `execute_query(sql, params)`
with the default row factory, and `tagTitles` models
`get_tags(titles_only=True)`. -/
structure DBOracle where
  runQuery : String → List String → List Row
  tagTitles : List String

/-- The text wrapper built by `Database.get_count`:
`SELECT COUNT(uuid) FROM (\n sql_query \n)` around the very same inner
query text. -/
def count_sql_query (sql_query : String) : String :=
  "SELECT COUNT(uuid) FROM (\n" ++ sql_query ++ "\n)"

/-- SQLite semantics of the `COUNT(uuid)` aggregate over the rows of the
inner query: the number of rows whose `uuid` is not NULL. -/
def sql_count_non_null (rows : List Row) : Nat :=
  (rows.filter fun r => r.uuid ≠ SQLVal.null).length

/-- Source `Database.get_count(sql_query, parameters)`: executes
`count_sql_query sql_query`; since that wraps the same inner text, the
value returned is the `COUNT(uuid)` aggregate over the rows of the inner
query. -/
def get_count (db : DBOracle) (sql_query : String) (parameters : List String) :
    Nat :=
  sql_count_non_null (db.runQuery sql_query parameters)

/-- All rows carrying a non-NULL uuid are counted: the aggregate is the
row count. -/
theorem sql_count_all_non_null {rs : List Row}
    (h : ∀ r ∈ rs, r.uuid ≠ SQLVal.null) : sql_count_non_null rs = rs.length := by
  have he : rs.filter (fun r => r.uuid ≠ SQLVal.null) = rs :=
    List.filter_eq_self.mpr fun r hr => by simp [h r hr]
  rw [sql_count_non_null, he]

/-- Source `make_tasks_sql_query(where_predicate, order_predicate)`: the
five-way join over `TMTask` with the computed columns, the given WHERE
predicate (default `TRUE`) and ORDER BY predicate (default
`TASK."index"`). -/
def make_tasks_sql_query (where_predicate order_predicate : Option String) :
    String :=
  let wp := py_or_str where_predicate "TRUE"
  let op := py_or_str order_predicate "TASK.\"index\""
  let start_date_expression :=
    convert_thingsdate_sql_expression_to_isodate "TASK.startDate"
  let deadline_expression :=
    convert_thingsdate_sql_expression_to_isodate "TASK.deadline"
  "\n            SELECT DISTINCT\n                TASK.uuid,\n                CASE\n                    WHEN TASK." ++
    IS_TODO ++ " THEN 'to-do'\n                    WHEN TASK." ++
    IS_PROJECT ++ " THEN 'project'\n                    WHEN TASK." ++
    IS_HEADING ++ " THEN 'heading'\n                END AS type,\n                CASE\n                    WHEN TASK." ++
    IS_TRASHED ++ " THEN 1\n                END AS trashed,\n                TASK.title,\n                CASE\n                    WHEN TASK." ++
    IS_INCOMPLETE ++ " THEN 'incomplete'\n                    WHEN TASK." ++
    IS_CANCELED ++ " THEN 'canceled'\n                    WHEN TASK." ++
    IS_COMPLETED ++ " THEN 'completed'\n                END AS status,\n                CASE\n                    WHEN AREA.uuid IS NOT NULL THEN AREA.uuid\n                END AS area,\n                CASE\n                    WHEN AREA.uuid IS NOT NULL THEN AREA.title\n                END AS area_title,\n                CASE\n                    WHEN PROJECT.uuid IS NOT NULL THEN PROJECT.uuid\n                END AS project,\n                CASE\n                    WHEN PROJECT.uuid IS NOT NULL THEN PROJECT.title\n                END AS project_title,\n                CASE\n                    WHEN HEADING.uuid IS NOT NULL THEN HEADING.uuid\n                END AS heading,\n                CASE\n                    WHEN HEADING.uuid IS NOT NULL THEN HEADING.title\n                END AS heading_title,\n                TASK.notes,\n                CASE\n                    WHEN TAG.uuid IS NOT NULL THEN 1\n                END AS tags,\n                CASE\n                    WHEN TASK." ++
    IS_INBOX ++ " THEN 'Inbox'\n                    WHEN TASK." ++
    IS_ANYTIME ++ " THEN 'Anytime'\n                    WHEN TASK." ++
    IS_SOMEDAY ++ " THEN 'Someday'\n                END AS start,\n                CASE\n                    WHEN CHECKLIST_ITEM.uuid IS NOT NULL THEN 1\n                END AS checklist,\n                date(" ++
    start_date_expression ++ ") AS start_date,\n                date(" ++
    deadline_expression ++ ") AS deadline,\n                datetime(TASK.stopDate, \"unixepoch\", \"localtime\") AS \"stop_date\",\n                datetime(TASK.creationDate, \"unixepoch\", \"localtime\") AS created,\n                datetime(TASK.userModificationDate, \"unixepoch\", \"localtime\") AS modified,\n                TASK.'index',\n                TASK.todayIndex AS today_index\n            FROM\n                TMTask AS TASK\n            LEFT OUTER JOIN\n                TMTask PROJECT ON TASK.project = PROJECT.uuid\n            LEFT OUTER JOIN\n                TMArea AREA ON TASK.area = AREA.uuid\n            LEFT OUTER JOIN\n                TMTask HEADING ON TASK.heading = HEADING.uuid\n            LEFT OUTER JOIN\n                TMTask PROJECT_OF_HEADING\n                ON HEADING.project = PROJECT_OF_HEADING.uuid\n            LEFT OUTER JOIN\n                TMTaskTag TAGS ON TASK.uuid = TAGS.tasks\n            LEFT OUTER JOIN\n                TMTag TAG ON TAGS.tags = TAG.uuid\n            LEFT OUTER JOIN\n                TMChecklistItem CHECKLIST_ITEM\n                ON TASK.uuid = CHECKLIST_ITEM.task\n            WHERE\n                " ++
    wp ++ "\n            ORDER BY\n                " ++ op ++ "\n            "

/-! ## The task and area queries -/

/-- The query result: a row list, or a bare count in `count_only` mode. -/
inductive QueryResult where
  | rows (rs : List Row)
  | count (n : Nat)
deriving DecidableEq, Repr

/-- Source `Database.get_task_by_uuid(uuid, count_only)`: the task query
with the parameterized predicate `TASK.uuid = ?`; in count mode the count
is returned as-is, otherwise an empty result raises `ValueError` naming
the uuid. -/
def get_task_by_uuid (db : DBOracle) (uuid : String) (count_only : Bool) :
    Except PyError QueryResult :=
  let sql_query := make_tasks_sql_query (some "TASK.uuid = ?") Option.none
  if count_only then
    Except.ok (QueryResult.count (get_count db sql_query [uuid]))
  else
    let result := db.runQuery sql_query [uuid]
    if result = [] then
      Except.error (PyError.notFound ("No such task uuid found: '" ++ uuid ++ "'"))
    else Except.ok (QueryResult.rows result)

/-- The area query text of `Database.get_areas`. -/
def areas_sql_query (uuid tag : Option String) : String :=
  "\n            SELECT DISTINCT\n                AREA.uuid,\n                'area' as type,\n                AREA.title,\n                CASE\n                    WHEN AREA_TAG.areas IS NOT NULL THEN 1\n                END AS tags\n            FROM\n                TMArea AS AREA\n            LEFT OUTER JOIN\n                TMAreaTag AREA_TAG ON AREA_TAG.areas = AREA.uuid\n            LEFT OUTER JOIN\n                TMTag TAG ON TAG.uuid = AREA_TAG.tags\n            WHERE\n                TRUE\n                " ++
    make_filter "TAG.title" (FilterValue.ofOption tag) ++ "\n                " ++
    make_filter "AREA.uuid" (FilterValue.ofOption uuid) ++
    "\n            ORDER BY AREA.\"index\"\n            "

/-- Source `Database.get_areas(uuid, tag, count_only)`: validate the tag
against the live tag titles; for a truthy uuid in full mode, raise
`ValueError` naming the uuid when the recursive
`get_areas(uuid=uuid, count_only=True)` — the count of the same area
query without the tag filter, inlined here — is zero; otherwise run the
area query. -/
def get_areas (db : DBOracle) (uuid tag : Option String) (count_only : Bool) :
    Except PyError QueryResult :=
  match (match tag with
         | Option.none => Except.ok ()
         | some t =>
           validate "tag" (some t)
             ((Option.none : Option String) :: db.tagTitles.map some)) with
  | Except.error e => Except.error e
  | Except.ok () =>
    let uuid_truthy : Bool := match uuid with
      | some u => u != ""
      | Option.none => false
    if uuid_truthy ∧ count_only = false ∧
        get_count db (areas_sql_query uuid Option.none) [] = 0 then
      Except.error (PyError.notFound
        ("No such area uuid found: '" ++ (uuid.getD "") ++ "'"))
    else if count_only then
      Except.ok (QueryResult.count (get_count db (areas_sql_query uuid tag) []))
    else Except.ok (QueryResult.rows (db.runQuery (areas_sql_query uuid tag) []))

/-- The keyword parameters of `Database.get_tasks` other than `uuid` and
`count_only` (which are threaded separately).  Defaults as in the source:
`trashed=False`, `context_trashed=False`, `exact=False`,
`search_query=""`, `index="index"`, all else `None`. -/
structure TaskParams where
  type : Option String
  status : Option String
  start : Option String
  area : FilterValue
  project : FilterValue
  heading : FilterValue
  tag : Option String
  start_date : FilterValue
  stop_date : FilterValue
  exact : Bool
  deadline : FilterValue
  deadline_suppressed : Option Bool
  trashed : Option Bool
  context_trashed : Option Bool
  last : OffsetArg
  search_query : String
  index : String
deriving DecidableEq, Repr

/-- The source defaults of the `get_tasks` parameters. -/
def default_task_params : TaskParams :=
  { type := Option.none, status := Option.none, start := Option.none,
    area := FilterValue.none, project := FilterValue.none,
    heading := FilterValue.none, tag := Option.none,
    start_date := FilterValue.none, stop_date := FilterValue.none,
    exact := false, deadline := FilterValue.none,
    deadline_suppressed := Option.none, trashed := some false,
    context_trashed := some false, last := OffsetArg.none,
    search_query := "", index := "index" }

/-- The overwrite `start = start and start.title()` at the top of
`get_tasks`. -/
def start_titled (p : TaskParams) : Option String := p.start.map py_title

/-- The validation block of `get_tasks`, in source order.  The tag check
queries the live tag titles of the database. -/
def validate_get_tasks (db : DBOracle) (p : TaskParams)
    (start2 : Option String) : Except PyError Unit := do
  let _ ← validate "deadline" p.deadline ([FilterValue.none] ++ DATES)
  let _ ← validate "deadline_suppressed" p.deadline_suppressed
    [Option.none, some true, some false]
  let _ ← validate "start" start2
    ([Option.none] ++ START_TO_FILTER.map fun kv => some kv.1)
  let _ ← validate "start_date" p.start_date ([FilterValue.none] ++ DATES)
  let _ ← validate "status" p.status
    ([Option.none] ++ STATUS_TO_FILTER.map fun kv => some kv.1)
  let _ ← validate "trashed" p.trashed [Option.none, some true, some false]
  let _ ← validate "type" p.type
    ([Option.none] ++ TYPE_TO_FILTER.map fun kv => some kv.1)
  let _ ← validate "context_trashed" p.context_trashed
    [Option.none, some true, some false]
  let _ ← validate "index" p.index INDICES
  let _ ← validate_offset "last" p.last
  match p.tag with
  | Option.none => Except.ok ()
  | some t =>
    validate "tag" (some t)
      ((Option.none : Option String) :: db.tagTitles.map some)

/-- The `where_predicate` f-string of `get_tasks`: each filter fragment on
its own 12-space-indented line, the fallible date filters evaluated in
source order. -/
def build_where_predicate (uuid : Option String) (p : TaskParams)
    (start2 : Option String) : Except PyError String := do
  let start_filter := match start2 with
    | some s => if s = "" then "" else dict_get START_TO_FILTER s ""
    | Option.none => ""
  let status_filter := match p.status with
    | some s => if s = "" then "" else dict_get STATUS_TO_FILTER s ""
    | Option.none => ""
  let trashed_filter := get_allow_none TRASHED_TO_FILTER p.trashed ""
  let type_filter := match p.type with
    | some s => if s = "" then "" else dict_get TYPE_TO_FILTER s ""
    | Option.none => ""
  let project_trashed_filter :=
    make_truthy_filter "PROJECT.trashed" p.context_trashed
  let project_of_heading_trashed_filter :=
    make_truthy_filter "PROJECT_OF_HEADING.trashed" p.context_trashed
  let project_filter := make_or_filter
    [make_filter "TASK.project" p.project,
     make_filter "PROJECT_OF_HEADING.uuid" p.project]
  let sd ← make_thingsdate_filter "TASK.startDate" p.start_date
  let st ← make_unixtime_filter "TASK.stopDate" p.stop_date p.exact
  let dl ← make_thingsdate_filter "TASK.deadline" p.deadline
  let lastf ← make_unixtime_range_filter "TASK.creationDate" p.last
  pure ("\n            TASK." ++ IS_NOT_RECURRING ++ "\n            " ++
    (if trashed_filter = "" then "" else "AND TASK." ++ trashed_filter) ++
    "\n            " ++ project_trashed_filter ++
    "\n            " ++ project_of_heading_trashed_filter ++
    "\n            " ++
    (if type_filter = "" then "" else "AND TASK." ++ type_filter) ++
    "\n            " ++
    (if start_filter = "" then "" else "AND TASK." ++ start_filter) ++
    "\n            " ++
    (if status_filter = "" then "" else "AND TASK." ++ status_filter) ++
    "\n            " ++ make_filter "TASK.uuid" (FilterValue.ofOption uuid) ++
    "\n            " ++ make_filter "TASK.area" p.area ++
    "\n            " ++ project_filter ++
    "\n            " ++ make_filter "TASK.heading" p.heading ++
    "\n            " ++ make_filter "TASK.deadlineSuppressionDate"
      (FilterValue.ofOptionBool p.deadline_suppressed) ++
    "\n            " ++ make_filter "TAG.title" (FilterValue.ofOption p.tag) ++
    "\n            " ++ sd ++
    "\n            " ++ st ++
    "\n            " ++ dl ++
    "\n            " ++ lastf ++
    "\n            " ++ make_search_filter (some p.search_query) ++
    "\n            ")

/-- The non-uuid branch of `get_tasks`: validate, assemble the predicate
and the query, and run it in row or count mode. -/
def get_tasks_filtered (db : DBOracle) (uuid : Option String) (p : TaskParams)
    (count_only : Bool) : Except PyError QueryResult :=
  match validate_get_tasks db p (start_titled p) with
  | Except.error e => Except.error e
  | Except.ok () =>
    match build_where_predicate uuid p (start_titled p) with
    | Except.error e => Except.error e
    | Except.ok wp =>
      let sql_query := make_tasks_sql_query (some wp)
        (some ("TASK.\"" ++ p.index ++ "\""))
      if count_only then
        Except.ok (QueryResult.count (get_count db sql_query []))
      else Except.ok (QueryResult.rows (db.runQuery sql_query []))

/-- Source `Database.get_tasks(uuid=..., ..., count_only=...)`: a truthy
uuid short-circuits to `get_task_by_uuid(uuid, count_only=count_only)`
before any validation; otherwise the filtered query runs. -/
def get_tasks (db : DBOracle) (uuid : Option String) (p : TaskParams)
    (count_only : Bool) : Except PyError QueryResult :=
  match uuid with
  | some u =>
    if u = "" then get_tasks_filtered db uuid p count_only
    else get_task_by_uuid db u count_only
  | Option.none => get_tasks_filtered db uuid p count_only

/-! ## Properties of the query layer -/

/-- C3 counterexample: calling `get_tasks` with the concrete ISO date
`"2021-03-28"` as `start_date` and the `exact` flag set raises
`ValueError` for the `start_date` parameter — the validation list for the
date-valued parameters is `[None, "future", "past", True, False]` — so no
comparison (neither `==` nor `>=`) is ever produced by `get_tasks` for a
concrete ISO date. -/
theorem get_tasks_iso_start_date_counterexample :
    get_tasks (DBOracle.mk (fun _ _ => []) []) Option.none
      { default_task_params with
        start_date := FilterValue.str "2021-03-28"
        exact := true } false =
      Except.error (PyError.validation "start_date") := rfl

/-- C10: a truthy uuid makes `get_tasks` return
`get_task_by_uuid(uuid, count_only)` immediately: every other parameter —
valid or not — is ignored, no validation runs, and no `ValidationError`
can be raised. -/
theorem get_tasks_uuid_shortcut (db : DBOracle) (u : String) (p : TaskParams)
    (count_only : Bool) (hu : u ≠ "") :
    get_tasks db (some u) p count_only = get_task_by_uuid db u count_only ∧
    (∀ p2 : TaskParams, get_tasks db (some u) p2 count_only =
      get_tasks db (some u) p count_only) ∧
    (∀ param, get_tasks db (some u) p count_only ≠
      Except.error (PyError.validation param)) := by
  have h1 : ∀ q : TaskParams, get_tasks db (some u) q count_only =
      get_task_by_uuid db u count_only := by
    intro q
    rw [get_tasks, if_neg hu]
  refine ⟨h1 p, fun p2 => (h1 p2).trans (h1 p).symm, ?_⟩
  intro param
  rw [h1 p]
  unfold get_task_by_uuid
  split_ifs <;> simp
  split_ifs <;> simp

/-- Witness for C10: with invalid `status`, `last` and `index` arguments,
a truthy uuid still short-circuits to the uuid lookup. -/
theorem get_tasks_uuid_shortcut_witness :
    get_tasks (DBOracle.mk (fun _ _ => []) []) (some "A1")
      { default_task_params with
        status := some "BOGUS-status"
        last := OffsetArg.str ""
        index := "nonsense" } true =
      get_task_by_uuid (DBOracle.mk (fun _ _ => []) []) "A1" true :=
  (get_tasks_uuid_shortcut (DBOracle.mk (fun _ _ => []) []) "A1"
    { default_task_params with
      status := some "BOGUS-status"
      last := OffsetArg.str ""
      index := "nonsense" } true (by decide)).1

/-- C9: a uuid-scoped task lookup over zero rows raises `ValueError`
naming the uuid and over a non-empty result returns the rows unchanged;
an area lookup for a truthy uuid raises `ValueError` naming the uuid when
the area count is zero, and returns the rows when the uuid exists. -/
theorem uuid_lookup_raises_not_found (db : DBOracle) (u : String) :
    (db.runQuery (make_tasks_sql_query (some "TASK.uuid = ?") Option.none) [u]
        = [] →
      get_task_by_uuid db u false =
        Except.error (PyError.notFound
          ("No such task uuid found: '" ++ u ++ "'"))) ∧
    (db.runQuery (make_tasks_sql_query (some "TASK.uuid = ?") Option.none) [u]
        ≠ [] →
      get_task_by_uuid db u false =
        Except.ok (QueryResult.rows
          (db.runQuery (make_tasks_sql_query (some "TASK.uuid = ?")
            Option.none) [u]))) ∧
    (u ≠ "" → db.runQuery (areas_sql_query (some u) Option.none) [] = [] →
      get_areas db (some u) Option.none false =
        Except.error (PyError.notFound
          ("No such area uuid found: '" ++ u ++ "'"))) ∧
    (u ≠ "" →
      (∀ r ∈ db.runQuery (areas_sql_query (some u) Option.none) [],
        r.uuid ≠ SQLVal.null) →
      db.runQuery (areas_sql_query (some u) Option.none) [] ≠ [] →
      get_areas db (some u) Option.none false =
        Except.ok (QueryResult.rows
          (db.runQuery (areas_sql_query (some u) Option.none) []))) := by
  refine ⟨?_, ?_, ?_, ?_⟩
  · intro h
    simp [get_task_by_uuid, h]
  · intro h
    simp [get_task_by_uuid, h]
  · intro hu h
    simp [get_areas, get_count, sql_count_non_null, h, hu]
  · intro hu hnn hne
    have hc : get_count db (areas_sql_query (some u) Option.none) [] =
        (db.runQuery (areas_sql_query (some u) Option.none) []).length := by
      rw [get_count, sql_count_all_non_null hnn]
    have hpos : get_count db (areas_sql_query (some u) Option.none) [] ≠ 0 := by
      rw [hc]
      simpa [List.length_eq_zero] using hne
    simp [get_areas, hu, hpos]

/-- Witness for C9 on an empty database: both lookups raise, naming the
uuid. -/
theorem uuid_lookup_raises_not_found_witness :
    get_task_by_uuid (DBOracle.mk (fun _ _ => []) []) "XYZ" false =
      Except.error (PyError.notFound
        ("No such task uuid found: '" ++ "XYZ" ++ "'")) ∧
    get_areas (DBOracle.mk (fun _ _ => []) []) (some "XYZ") Option.none false =
      Except.error (PyError.notFound
        ("No such area uuid found: '" ++ "XYZ" ++ "'")) :=
  ⟨(uuid_lookup_raises_not_found (DBOracle.mk (fun _ _ => []) []) "XYZ").1 rfl,
   (uuid_lookup_raises_not_found (DBOracle.mk (fun _ _ => []) []) "XYZ").2.2.1
     (by decide) rfl⟩

/-- C8: `get_count` wraps the very same assembled query text as
`SELECT COUNT(uuid) FROM (inner)`, and the count mode of `get_tasks`
agrees with its full-result mode: whenever full mode returns rows (whose
primary-key uuid column is non-NULL), count mode over the same parameters
returns exactly their number. -/
theorem count_mode_agrees :
    (∀ q, count_sql_query q = "SELECT COUNT(uuid) FROM (\n" ++ q ++ "\n)") ∧
    (∀ (db : DBOracle) (uuid : Option String) (p : TaskParams)
        (rs : List Row),
      get_tasks db uuid p false = Except.ok (QueryResult.rows rs) →
      (∀ r ∈ rs, r.uuid ≠ SQLVal.null) →
      get_tasks db uuid p true = Except.ok (QueryResult.count rs.length)) := by
  refine ⟨fun q => rfl, ?_⟩
  intro db uuid p rs hrow hnn
  have hmain : ∀ uu : Option String,
      get_tasks_filtered db uu p false = Except.ok (QueryResult.rows rs) →
      get_tasks_filtered db uu p true =
        Except.ok (QueryResult.count rs.length) := by
    intro uu hr
    unfold get_tasks_filtered at hr ⊢
    cases hv : validate_get_tasks db p (start_titled p) with
    | error e =>
      rw [hv] at hr
      exact absurd hr (by simp)
    | ok uv =>
      cases uv
      rw [hv] at hr
      cases hb : build_where_predicate uu p (start_titled p) with
      | error e =>
        rw [hb] at hr
        exact absurd hr (by simp)
      | ok wp =>
        rw [hb] at hr
        have hq : db.runQuery (make_tasks_sql_query (some wp)
            (some ("TASK.\"" ++ p.index ++ "\""))) [] = rs := by
          simpa using hr
        simp [get_count, hq, sql_count_all_non_null hnn]
  cases uuid with
  | none => exact hmain Option.none hrow
  | some u =>
    by_cases hu : u = ""
    · rw [get_tasks, if_pos hu] at hrow ⊢
      exact hmain (some u) hrow
    · rw [get_tasks, if_neg hu] at hrow ⊢
      have hrow2 : (if db.runQuery (make_tasks_sql_query (some "TASK.uuid = ?")
          Option.none) [u] = [] then
            Except.error (PyError.notFound
              ("No such task uuid found: '" ++ u ++ "'"))
          else Except.ok (QueryResult.rows (db.runQuery (make_tasks_sql_query
            (some "TASK.uuid = ?") Option.none) [u]))) =
          Except.ok (QueryResult.rows rs) := hrow
      show Except.ok (QueryResult.count (get_count db (make_tasks_sql_query
          (some "TASK.uuid = ?") Option.none) [u])) =
        Except.ok (QueryResult.count rs.length)
      split_ifs at hrow2 with hres
      have hq : db.runQuery (make_tasks_sql_query (some "TASK.uuid = ?")
          Option.none) [u] = rs := by
        simpa using hrow2
      rw [get_count, hq, sql_count_all_non_null hnn]

/-- Witness for C8: on an oracle returning one row with a non-NULL uuid,
count mode returns 1 for the default filter parameters. -/
theorem count_mode_agrees_witness :
    get_tasks (DBOracle.mk (fun _ _ => [Row.mk (SQLVal.text "T1")]) [])
      Option.none default_task_params true =
      Except.ok (QueryResult.count [Row.mk (SQLVal.text "T1")].length) :=
  count_mode_agrees.2 (DBOracle.mk (fun _ _ => [Row.mk (SQLVal.text "T1")]) [])
    Option.none default_task_params [Row.mk (SQLVal.text "T1")] rfl (by decide)

end ThingsPy
